import Mathlib

/-!
Verification development for `agent_stdio_multi_agent.py`: a shallow
embedding of the script's data model and control flow (startup environment
checks, the stdio MCP session scope, the bounded conversation window, the
`weather_assistant` sub-agent wrapper, the orchestrator agent construction
and the interactive loop), with theorems about the embedded definitions.
External collaborators (the model backend, the tool processes) are
represented by explicit oracles; exceptions are represented by `Except`.
-/

namespace StrandsDemo

/-- Role of a message in a conversation log (spec section 3, `Message`). -/
inductive Role
  | user
  | assistant
  | tool
  deriving DecidableEq, Repr

/-- A conversation message: role and textual content. -/
structure Message where
  role : Role
  content : String
  deriving DecidableEq, Repr

/-- Modelled from the spec: `SlidingWindowConversationManager` is supplied by
the external strands library (constructed in the source at lines 44-46 with
`window_size=20`), so its algorithm is not in this repository. Spec section
4.3 gives its contract: `append(message)` adds to the ordered log and, if the
resulting length exceeds the capacity, evicts from the front until the length
equals the capacity; `snapshot()` returns the current window, oldest first. -/
structure ConversationWindow where
  capacity : Nat
  messages : List Message
  deriving DecidableEq, Repr

/-- Keep the trailing (most recent) `cap` elements of a list: drop from the
front until at most `cap` remain. -/
def trunc (cap : Nat) (l : List Message) : List Message :=
  l.drop (l.length - cap)

/-- Modelled from the spec: append one message, evicting from the front once
capacity is exceeded (FIFO eviction). -/
def ConversationWindow.append (w : ConversationWindow) (m : Message) : ConversationWindow :=
  ⟨w.capacity, trunc w.capacity (w.messages ++ [m])⟩

/-- Modelled from the spec: the current window contents, oldest first. -/
def ConversationWindow.snapshot (w : ConversationWindow) : List Message :=
  w.messages

/-- Append a sequence of messages one at a time, in order. -/
def ConversationWindow.appendAll (w : ConversationWindow) (ms : List Message) : ConversationWindow :=
  ms.foldl ConversationWindow.append w

/-- A fresh, empty window of the given capacity. -/
def emptyWindow (c : Nat) : ConversationWindow :=
  ⟨c, []⟩

/-- The conversation manager configured in the source (lines 44-46):
a sliding window of capacity 20. -/
def conversation_manager : ConversationWindow :=
  emptyWindow 20

/-- Identifiers for the tools wired up in the source: tools discovered from
the MCP server (known by name), plus the three local tools passed to the
orchestrator (lines 118-123) and the HTTP tool given to the weather
sub-agent (line 95). -/
inductive ToolId
  | mcp (name : String)
  | weather_assistant
  | http_request
  | shell
  deriving DecidableEq, Repr

/-- An agent as constructed by `Agent(...)` in the source: a system prompt, a
tool list fixed at construction, and a conversation window. -/
structure AgentState where
  system_prompt : String
  tools : List ToolId
  window : ConversationWindow
  deriving DecidableEq, Repr

/-- The weather-focused system prompt of the source (lines 58-76). -/
def WEATHER_SYSTEM_PROMPT : String :=
  "You are a weather assistant with HTTP capabilities. You can:\n\n1. Make HTTP requests to the National Weather Service API\n2. Process and display weather forecast data\n3. Provide weather information for locations in the United States\n\nWhen retrieving weather information:\n1. Based on the city and state, get the latitude and longitude coordinates.\n2. Use those coordinates with the following URL template: https://api.weather.gov/points/\x7blatitude\x7d,\x7blongitude\x7d\n3. Then use the returned forecast URL to get the actual forecast\n\nWhen displaying weather responses:\n- Provide a single, concise sentence summarizing the actual current weather in that location.\n- Do not include numerical details like temperature, wind speed, or humidity.\n- Do not include the city or state name in the response; focus on the weather conditions only.\n- Do not start with \"The weather is\" or similar phrases.\n- Use natural language to describe the weather, e.g., \"It is sunny with a chance of rain later.\"\n- Example responses: \"Cloudy with a chance of showers\" or \"Sunny and the sky is clear\"\n"

/-- The main system prompt of the source (lines 109-113, three concatenated
string literals). -/
def MAIN_SYSTEM_PROMPT : String :=
  "You are a helpful assistant that can use various tools to answer questions. You can use tools like weather_forecast, search_shutterstock, echo, greet, calculate_area, and get_api_key. Use the tools to get the weather forecast, find images from Shutterstock, calculate areas, retrieve API keys, and more."

/-- The fresh sub-agent constructed inside `weather_assistant` on every call
(line 95): `Agent(system_prompt=WEATHER_SYSTEM_PROMPT, tools=[http_request])`.
The window capacity is immaterial to the claims; the agent starts with an
empty, private conversation state. -/
def mkWeatherAgent : AgentState :=
  ⟨WEATHER_SYSTEM_PROMPT, [ToolId.http_request], emptyWindow 20⟩

/-- An oracle for running one agent turn against the external world (model
backend, HTTP calls): it may return a response or raise an exception,
represented by `Except`. -/
def AgentRunner : Type :=
  AgentState → String → Except String String

/-- Embedding of `weather_assistant` (lines 79-101): build a fresh agent with
the weather prompt and the single `http_request` tool, run the query, and
return the stringified response; any exception raised during the run is
caught and converted to the error string of line 101. -/
def weather_assistant (run : AgentRunner) (query : String) : String :=
  match run mkWeatherAgent query with
  | Except.ok response => response
  | Except.error e => "Error in weather assistant: " ++ e

/-- A sequence of process-level calls to `weather_assistant`: the source
function keeps no state between calls (`weather_agent` is a local variable
created anew on each call), so consecutive calls share nothing. -/
def runWeatherCalls (run : AgentRunner) (qs : List String) : List String :=
  qs.map (weather_assistant run)

/-- Python truthiness of `os.environ.get`: `None` and the empty string are
falsy; any other string is truthy. -/
def pyTruthy : Option String → Bool
  | none => false
  | some s => !(s == "")

/-- Embedding of the startup checks and the spawned server's environment
(lines 21-40): read the two credential variables, raise `ValueError` if
either is falsy, and otherwise build the isolated `env` dictionary passed to
`StdioServerParameters` — exactly the two forwarded variables. -/
def startup (env : String → Option String) : Except String (List (String × String)) :=
  let a := env "API_KEY"
  if pyTruthy a = false then
    Except.error "API_KEY environment variable is not set."
  else
    let t := env "SHUTTERSTOCK_API_TOKEN"
    if pyTruthy t = false then
      Except.error "SHUTTERSTOCK_API_TOKEN environment variable is not set."
    else
      Except.ok [("API_KEY", a.getD ""), ("SHUTTERSTOCK_API_TOKEN", t.getD "")]

/-- Both credential variables pass the source's falsiness checks. -/
def configOk (env : String → Option String) : Bool :=
  pyTruthy (env "API_KEY") && pyTruthy (env "SHUTTERSTOCK_API_TOKEN")

/-- Outcome of the `orchestrator_agent(user_input)` call of one turn, as seen
at the loop boundary: a normal response, a raised `Exception`, or a raised
`KeyboardInterrupt`. -/
inductive TurnOutcome
  | ok (response : String)
  | exc (msg : String)
  | interrupt
  deriving DecidableEq, Repr

/-- One iteration's stimulus from the outside world: either `input()` returns
a line (with the outcome the orchestrator call would have if dispatched), or
`input()` itself is interrupted by `KeyboardInterrupt`. -/
inductive Stimulus
  | line (s : String) (t : TurnOutcome)
  | interruptAtInput
  deriving DecidableEq, Repr

/-- Observable events of the program, in order: session lifecycle of the
`with stdio_mcp_client` scope and the console output of the loop. -/
inductive Event
  | sessionOpen
  | sessionClose
  | banner
  | prompt
  | goodbye
  | dispatch (q : String)
  | errorShown (m : String)
  | tryDifferent
  | interrupted
  deriving DecidableEq, Repr

/-- How the interactive loop ends: `break` at line 143 (exit/quit), `break`
at line 149 (KeyboardInterrupt), or still waiting for input (the modelled
stimulus list ran out without an exit). -/
inductive LoopExit
  | exited
  | interrupted
  | running
  deriving DecidableEq, Repr

/-- ASCII lowercase of a character, as Python's `str.lower` acts on ASCII. -/
def charLower (c : Char) : Char :=
  if 65 ≤ c.toNat ∧ c.toNat ≤ 90 then Char.ofNat (c.toNat + 32) else c

/-- Embedding of `user_input.lower()` (line 141), restricted to ASCII
case-folding. -/
def strLower (s : String) : String :=
  ⟨s.data.map charLower⟩

/-- The reserved-input check of line 141:
`user_input.lower() == "exit" or user_input.lower() == "quit"`. -/
def isExitCmd (s : String) : Bool :=
  strLower s == "exit" || strLower s == "quit"

/-- Record one completed turn in the orchestrator's conversation window: the
user message and the assistant's response, managed by the sliding window. -/
def recordTurn (st : AgentState) (q r : String) : AgentState :=
  { st with window := st.window.appendAll [⟨Role.user, q⟩, ⟨Role.assistant, r⟩] }

/-- Embedding of the interactive loop (lines 137-152). Each iteration prints
the prompt and reads input; `exit`/`quit` prints the goodbye and breaks; any
other line is dispatched to the orchestrator; a raised `Exception` is caught,
shown to the user, and the loop continues; a raised `KeyboardInterrupt`
(during input or during the turn) prints the interrupted message and breaks. -/
def loop (st : AgentState) : List Stimulus → List Event × AgentState × LoopExit
  | [] => ([], st, LoopExit.running)
  | Stimulus.interruptAtInput :: _ =>
      ([Event.prompt, Event.interrupted], st, LoopExit.interrupted)
  | Stimulus.line s t :: rest =>
      if isExitCmd s then
        ([Event.prompt, Event.goodbye], st, LoopExit.exited)
      else
        match t with
        | TurnOutcome.ok r =>
            let res := loop (recordTurn st s r) rest
            (Event.prompt :: Event.dispatch s :: res.1, res.2)
        | TurnOutcome.exc m =>
            let res := loop st rest
            (Event.prompt :: Event.dispatch s :: Event.errorShown m :: Event.tryDifferent :: res.1, res.2)
        | TurnOutcome.interrupt =>
            ([Event.prompt, Event.dispatch s, Event.interrupted], st, LoopExit.interrupted)

/-- The orchestrator's tool list (lines 118-123): the tools discovered from
the MCP server, in order, followed by `weather_assistant`, `http_request`,
and `shell`. -/
def orchestratorTools (mcpTools : List String) : List ToolId :=
  mcpTools.map ToolId.mcp ++ [ToolId.weather_assistant, ToolId.http_request, ToolId.shell]

/-- The orchestrator agent as constructed at lines 116-126: the main system
prompt, the combined tool list, and the capacity-20 conversation manager. -/
def mkOrchestrator (mcpTools : List String) : AgentState :=
  ⟨MAIN_SYSTEM_PROMPT, orchestratorTools mcpTools, conversation_manager⟩

/-- Final state of the process in a modelled run. -/
inductive ProgResult
  | configError (m : String)
  | uncaught (m : String)
  | finished
  | stillRunning
  deriving DecidableEq, Repr

/-- Process exit code: the uncaught `ValueError` of lines 23-26 and an
exception escaping the `with` body exit nonzero; both `break` paths fall off
the end of the script, exit code 0; `none` while still running. -/
def exitCode : ProgResult → Option Nat
  | ProgResult.configError _ => some 1
  | ProgResult.uncaught _ => some 1
  | ProgResult.finished => some 0
  | ProgResult.stillRunning => none

/-- A modelled run of the whole program: the ordered event trace, the process
result, and the orchestrator's final state when it was constructed. -/
structure RunResult where
  events : List Event
  result : ProgResult
  finalAgent : Option AgentState
  deriving DecidableEq, Repr

/-- Embedding of the module-level control flow: startup checks (lines 21-26),
then the `with stdio_mcp_client` scope (line 104) opening the session; tool
discovery `list_tools_sync` (line 106) may raise, in which case Python's
with-statement still runs the scope's teardown exactly once and the
exception escapes; otherwise the orchestrator is built and the interactive
loop runs; when the loop breaks, the scope exits and the teardown runs. -/
def runProgram (env : String → Option String) (listTools : Except String (List String))
    (stimuli : List Stimulus) : RunResult :=
  match startup env with
  | Except.error m => ⟨[], ProgResult.configError m, none⟩
  | Except.ok _ =>
    match listTools with
    | Except.error m =>
        ⟨[Event.sessionOpen, Event.sessionClose], ProgResult.uncaught m, none⟩
    | Except.ok mcpTools =>
        let res := loop (mkOrchestrator mcpTools) stimuli
        match res.2.2 with
        | LoopExit.running =>
            ⟨Event.sessionOpen :: Event.banner :: res.1, ProgResult.stillRunning, some res.2.1⟩
        | LoopExit.exited =>
            ⟨(Event.sessionOpen :: Event.banner :: res.1) ++ [Event.sessionClose],
              ProgResult.finished, some res.2.1⟩
        | LoopExit.interrupted =>
            ⟨(Event.sessionOpen :: Event.banner :: res.1) ++ [Event.sessionClose],
              ProgResult.finished, some res.2.1⟩

/-- Occurrence count of an event in a trace. -/
def countEvent (e : Event) : List Event → Nat
  | [] => 0
  | x :: xs => (if x = e then 1 else 0) + countEvent e xs

/-- Twenty-one distinct messages, in order, for the capacity-20 scenario. -/
def msgs21 : List Message :=
  (List.range 21).map (fun i => ⟨Role.user, toString i⟩)

/-- An agent runner whose every call raises, modelling a network failure. -/
def failingRunner : AgentRunner :=
  fun _ _ => Except.error "Connection timed out"

/-- A parent environment holding both credentials (non-empty). -/
def envBoth : String → Option String :=
  fun k =>
    if k = "API_KEY" then some "abc123"
    else if k = "SHUTTERSTOCK_API_TOKEN" then some "tok456"
    else none

/-- A parent environment where `API_KEY` is present but set to the empty
string, and the token is present and non-empty. -/
def envEmptyKey : String → Option String :=
  fun k =>
    if k = "API_KEY" then some ""
    else if k = "SHUTTERSTOCK_API_TOKEN" then some "token123"
    else none

/-- A parent environment with both credentials plus an extra variable. -/
def envExtraHome : String → Option String :=
  fun k =>
    if k = "API_KEY" then some "secret1"
    else if k = "SHUTTERSTOCK_API_TOKEN" then some "secret2"
    else if k = "HOME" then some "/home/gary"
    else none

/-- A parent environment with the same credentials as `envExtraHome` but a
different extra variable. -/
def envExtraPath : String → Option String :=
  fun k =>
    if k = "API_KEY" then some "secret1"
    else if k = "SHUTTERSTOCK_API_TOKEN" then some "secret2"
    else if k = "PATH" then some "/usr/bin"
    else none

/-- A stimulus list whose first turn is interrupted mid-turn and which has a
further input queued behind it. -/
def stimInterruptMidturn : List Stimulus :=
  [Stimulus.line "weather in Boston" TurnOutcome.interrupt,
   Stimulus.line "second question" (TurnOutcome.ok "answer")]

lemma length_trunc (cap : Nat) (l : List Message) :
    (trunc cap l).length = min l.length cap := by
  simp only [trunc, List.length_drop]
  omega

lemma drop_append_of_le (l1 l2 : List Message) (n : Nat) (h : n ≤ l1.length) :
    (l1 ++ l2).drop n = l1.drop n ++ l2 := by
  induction l1 generalizing n with
  | nil =>
    simp at h
    simp [h]
  | cons a as ih =>
    cases n with
    | zero => simp
    | succ k =>
      simp only [List.cons_append, List.drop_succ_cons]
      exact ih k (by simpa using h)

lemma trunc_append_one (cap : Nat) (L : List Message) (m : Message) :
    trunc cap (trunc cap L ++ [m]) = trunc cap (L ++ [m]) := by
  by_cases hle : L.length ≤ cap
  · have h0 : L.length - cap = 0 := by omega
    simp [trunc, h0]
  · push_neg at hle
    by_cases hc : cap = 0
    · subst hc
      have h1 : trunc 0 L = [] := by
        simp [trunc, List.drop_length]
      have h3 : trunc 0 (L ++ [m]) = [] := by
        simp [trunc, List.drop_length]
      rw [h1, List.nil_append, h3]
      simp [trunc]
    · have hc1 : 1 ≤ cap := Nat.one_le_iff_ne_zero.mpr hc
      have hlen : (trunc cap L).length = cap := by
        rw [length_trunc]; omega
      have e1 : trunc cap (trunc cap L ++ [m]) = (trunc cap L ++ [m]).drop 1 := by
        show (trunc cap L ++ [m]).drop ((trunc cap L ++ [m]).length - cap)
            = (trunc cap L ++ [m]).drop 1
        congr 1
        rw [List.length_append, hlen]
        simp
      have e2 : (trunc cap L ++ [m]).drop 1 = (trunc cap L).drop 1 ++ [m] :=
        drop_append_of_le _ _ 1 (by rw [hlen]; omega)
      have e3 : (trunc cap L).drop 1 = L.drop (L.length - cap + 1) := by
        show (L.drop (L.length - cap)).drop 1 = L.drop (L.length - cap + 1)
        rw [List.drop_drop]
      have e4 : trunc cap (L ++ [m]) = L.drop (L.length - cap + 1) ++ [m] := by
        show (L ++ [m]).drop ((L ++ [m]).length - cap) = _
        rw [List.length_append]
        have hidx : L.length + ([m] : List Message).length - cap
            = L.length - cap + 1 := by
          simp only [List.length_cons, List.length_nil]
          omega
        rw [hidx, drop_append_of_le _ _ _ (by omega)]
      rw [e1, e2, e3, e4]

lemma trunc_nil (cap : Nat) : trunc cap [] = [] := by
  simp [trunc]

lemma appendAll_messages (cap : Nat) (ms : List Message) :
    ∀ L : List Message,
      (ConversationWindow.appendAll ⟨cap, trunc cap L⟩ ms).messages = trunc cap (L ++ ms) := by
  induction ms with
  | nil =>
    intro L
    simp [ConversationWindow.appendAll]
  | cons m ms ih =>
    intro L
    have hstep : ConversationWindow.append ⟨cap, trunc cap L⟩ m
        = ⟨cap, trunc cap (L ++ [m])⟩ := by
      simp [ConversationWindow.append, trunc_append_one]
    calc (ConversationWindow.appendAll ⟨cap, trunc cap L⟩ (m :: ms)).messages
        = (ConversationWindow.appendAll (ConversationWindow.append ⟨cap, trunc cap L⟩ m) ms).messages := rfl
      _ = (ConversationWindow.appendAll ⟨cap, trunc cap (L ++ [m])⟩ ms).messages := by
          rw [hstep]
      _ = trunc cap ((L ++ [m]) ++ ms) := ih (L ++ [m])
      _ = trunc cap (L ++ (m :: ms)) := by
          rw [List.append_assoc]
          rfl

lemma appendAll_capacity (ms : List Message) :
    ∀ w : ConversationWindow, (w.appendAll ms).capacity = w.capacity := by
  induction ms with
  | nil => intro w; rfl
  | cons m ms ih =>
    intro w
    calc (w.appendAll (m :: ms)).capacity
        = ((w.append m).appendAll ms).capacity := rfl
      _ = (w.append m).capacity := ih _
      _ = w.capacity := rfl

lemma appendAll_empty_messages (cap : Nat) (ms : List Message) :
    ((emptyWindow cap).appendAll ms).messages = trunc cap ms := by
  have h := appendAll_messages cap ms []
  rw [trunc_nil] at h
  simpa [emptyWindow] using h

lemma countEvent_append (e : Event) (l1 l2 : List Event) :
    countEvent e (l1 ++ l2) = countEvent e l1 + countEvent e l2 := by
  induction l1 with
  | nil => simp [countEvent]
  | cons x xs ih => simp [countEvent, ih]; omega

lemma countEvent_eq_zero_of_not_mem (e : Event) (l : List Event) (h : e ∉ l) :
    countEvent e l = 0 := by
  induction l with
  | nil => rfl
  | cons x xs ih =>
    simp only [List.mem_cons, not_or] at h
    have hx : x ≠ e := fun hxe => h.1 hxe.symm
    simp [countEvent, hx, ih h.2]

lemma loop_no_session_events (stimuli : List Stimulus) :
    ∀ st : AgentState,
      Event.sessionOpen ∉ (loop st stimuli).1 ∧ Event.sessionClose ∉ (loop st stimuli).1 := by
  induction stimuli with
  | nil => intro st; simp [loop]
  | cons stim rest ih =>
    intro st
    cases stim with
    | interruptAtInput => simp [loop]
    | line s t =>
      by_cases hs : isExitCmd s
      · simp [loop, hs]
      · cases t with
        | ok r =>
          have h := ih (recordTurn st s r)
          simp [loop, hs]
          exact ⟨h.1, h.2⟩
        | exc m =>
          have h := ih st
          simp [loop, hs]
          exact ⟨h.1, h.2⟩
        | interrupt => simp [loop, hs]

lemma loop_tools (stimuli : List Stimulus) :
    ∀ st : AgentState, (loop st stimuli).2.1.tools = st.tools := by
  induction stimuli with
  | nil => intro st; rfl
  | cons stim rest ih =>
    intro st
    cases stim with
    | interruptAtInput => rfl
    | line s t =>
      by_cases hs : isExitCmd s
      · simp [loop, hs]
      · cases t with
        | ok r =>
          have h := ih (recordTurn st s r)
          simp [loop, hs]
          rw [h]
          rfl
        | exc m =>
          have h := ih st
          simp [loop, hs]
          rw [h]
        | interrupt => simp [loop, hs]

lemma configOk_startup (env : String → Option String) (h : configOk env = true) :
    startup env
      = Except.ok [("API_KEY", (env "API_KEY").getD ""),
                   ("SHUTTERSTOCK_API_TOKEN", (env "SHUTTERSTOCK_API_TOKEN").getD "")] := by
  simp only [configOk, Bool.and_eq_true] at h
  simp [startup, h.1, h.2]

lemma pyTruthy_iff (o : Option String) :
    pyTruthy o = true ↔ (o ≠ none ∧ o ≠ some "") := by
  cases o with
  | none => simp [pyTruthy]
  | some s =>
    simp only [pyTruthy, Bool.not_eq_eq_eq_not, Bool.not_true, beq_eq_false_iff_ne,
      ne_eq, Option.some.injEq]
    constructor
    · intro hs; exact ⟨fun h => Option.noConfusion h, fun h => hs h⟩
    · intro hs h; exact hs.2 h

lemma startup_error_of_not_configOk (env : String → Option String)
    (h : configOk env = false) : ∃ m, startup env = Except.error m := by
  simp only [configOk, Bool.and_eq_false_iff] at h
  rcases h with h | h
  · exact ⟨"API_KEY environment variable is not set.", by simp [startup, h]⟩
  · by_cases ha : pyTruthy (env "API_KEY") = true
    · exact ⟨"SHUTTERSTOCK_API_TOKEN environment variable is not set.",
        by simp [startup, ha, h]⟩
    · simp only [Bool.not_eq_true] at ha
      exact ⟨"API_KEY environment variable is not set.", by simp [startup, ha]⟩

/-- C1: for the capacity-20 conversation window of the source, any sequence
of N ≥ 1 appended messages yields a snapshot of length min(N, 20); the
length never exceeds 20 at any intermediate point; eviction is FIFO, so the
snapshot is exactly the suffix of the most recently appended messages in
their original relative order (`drop (N - 20)`). In particular, appending a
21st message evicts message number 1 and retains messages 2 through 21. -/
theorem window_fifo_bounded (ms : List Message) (_h : 1 ≤ ms.length) :
    (conversation_manager.appendAll ms).snapshot.length = min ms.length 20
    ∧ (conversation_manager.appendAll ms).snapshot = ms.drop (ms.length - 20)
    ∧ ∀ k : Nat, ((conversation_manager.appendAll (ms.take k)).snapshot).length ≤ 20 := by
  have hmain : ∀ l : List Message,
      (conversation_manager.appendAll l).snapshot = trunc 20 l := by
    intro l
    show ((emptyWindow 20).appendAll l).messages = trunc 20 l
    exact appendAll_empty_messages 20 l
  refine ⟨?_, ?_, ?_⟩
  · rw [hmain ms, length_trunc]
  · rw [hmain ms]; rfl
  · intro k
    rw [hmain (ms.take k), length_trunc]
    omega

/-- Witness for C1 at a concrete input: the capacity-20 window receiving 21
distinct messages keeps exactly messages 2 through 21 (it evicts the first),
and the snapshot has length 20. -/
theorem window_fifo_bounded_witness :
    1 ≤ msgs21.length
    ∧ (conversation_manager.appendAll msgs21).snapshot = msgs21.drop 1
    ∧ (conversation_manager.appendAll msgs21).snapshot.length = 20 := by
  have h := window_fifo_bounded msgs21 (by decide)
  refine ⟨by decide, ?_, ?_⟩
  · exact h.2.1.trans (by decide)
  · exact h.1.trans (by decide)

/-- C2: the sub-agent wrapper `weather_assistant` never raises past its
boundary: on a successful internal run it returns the stringified response,
and on any internal exception it returns exactly
`"Error in weather assistant: " ++ message`; in all cases it returns a
string (its return type). -/
theorem weather_assistant_never_raises (run : AgentRunner) (query : String) :
    (∀ r : String, run mkWeatherAgent query = Except.ok r →
      weather_assistant run query = r)
    ∧ (∀ m : String, run mkWeatherAgent query = Except.error m →
      weather_assistant run query = "Error in weather assistant: " ++ m) := by
  constructor
  · intro r hr; simp [weather_assistant, hr]
  · intro m hm; simp [weather_assistant, hm]

/-- Witness for C2 at a concrete input: a runner that always raises a
network failure yields the exact error-prefixed string. -/
theorem weather_assistant_never_raises_witness :
    weather_assistant failingRunner "What is the weather in Boston, MA?"
      = "Error in weather assistant: Connection timed out" := by
  have h := (weather_assistant_never_raises failingRunner
    "What is the weather in Boston, MA?").2 "Connection timed out" rfl
  exact h.trans (by decide)

/-- C3: whenever the startup checks pass, the stdio MCP session is opened
exactly once, and it is torn down exactly once on every exit path of the
scope — normal loop exit via exit/quit and interrupt inside the scope (both
loop breaks), and an unhandled exception inside the scope (`listTools`
raising); while the loop is still running the session has not been closed,
and no terminated run leaves the session open. -/
theorem session_teardown_once (env : String → Option String)
    (listTools : Except String (List String)) (stimuli : List Stimulus)
    (h : configOk env = true) :
    countEvent Event.sessionOpen (runProgram env listTools stimuli).events = 1
    ∧ ((runProgram env listTools stimuli).result ≠ ProgResult.stillRunning →
        countEvent Event.sessionClose (runProgram env listTools stimuli).events = 1)
    ∧ ((runProgram env listTools stimuli).result = ProgResult.stillRunning →
        countEvent Event.sessionClose (runProgram env listTools stimuli).events = 0)
    ∧ (∀ m, listTools = Except.error m →
        (runProgram env listTools stimuli).result ≠ ProgResult.stillRunning)
    ∧ (∀ ts, listTools = Except.ok ts →
        (loop (mkOrchestrator ts) stimuli).2.2 ≠ LoopExit.running →
        (runProgram env listTools stimuli).result ≠ ProgResult.stillRunning) := by
  have hs := configOk_startup env h
  cases listTools with
  | error m =>
    simp only [runProgram, hs]
    refine ⟨by simp [countEvent], ?_, ?_, ?_, ?_⟩
    · intro _; simp [countEvent]
    · intro hcontra; exact absurd hcontra (by simp)
    · intro _ _; simp
    · intro ts hts; exact absurd hts (by simp)
  | ok ts =>
    have hopen := (loop_no_session_events stimuli (mkOrchestrator ts)).1
    have hclose := (loop_no_session_events stimuli (mkOrchestrator ts)).2
    have hzOpen := countEvent_eq_zero_of_not_mem _ _ hopen
    have hzClose := countEvent_eq_zero_of_not_mem _ _ hclose
    cases hres : (loop (mkOrchestrator ts) stimuli).2.2 with
    | running =>
      simp only [runProgram, hs, hres]
      refine ⟨?_, ?_, ?_, ?_, ?_⟩
      · simp [countEvent, hzOpen]
      · intro hcontra; exact absurd rfl hcontra
      · intro _; simp [countEvent, hzClose]
      · intro m hm; exact absurd hm (by simp)
      · intro ts2 hts2 hx
        cases hts2
        exact absurd hres hx
    | exited =>
      simp only [runProgram, hs, hres]
      refine ⟨?_, ?_, ?_, ?_, ?_⟩
      · simp [countEvent_append, countEvent, hzOpen]
      · intro _; simp [countEvent_append, countEvent, hzClose]
      · intro hcontra; exact absurd hcontra (by simp)
      · intro m hm; exact absurd hm (by simp)
      · intro _ _ _; simp
    | interrupted =>
      simp only [runProgram, hs, hres]
      refine ⟨?_, ?_, ?_, ?_, ?_⟩
      · simp [countEvent_append, countEvent, hzOpen]
      · intro _; simp [countEvent_append, countEvent, hzClose]
      · intro hcontra; exact absurd hcontra (by simp)
      · intro m hm; exact absurd hm (by simp)
      · intro _ _ _; simp

/-- Witness for C3 at a concrete input: a session that ends by typing
`quit` opens the session exactly once and closes it exactly once. -/
theorem session_teardown_once_witness :
    countEvent Event.sessionOpen
      (runProgram envBoth (Except.ok ["search_shutterstock"])
        [Stimulus.line "quit" (TurnOutcome.ok "r")]).events = 1
    ∧ countEvent Event.sessionClose
      (runProgram envBoth (Except.ok ["search_shutterstock"])
        [Stimulus.line "quit" (TurnOutcome.ok "r")]).events = 1 := by
  have h := session_teardown_once envBoth (Except.ok ["search_shutterstock"])
    [Stimulus.line "quit" (TurnOutcome.ok "r")] (by decide)
  exact ⟨h.1, h.2.1 (by decide)⟩

/-- C4: an `Exception` raised while resolving one user input is caught at
the turn boundary: it is converted into the user-visible error messages and
the loop then behaves on the remaining inputs exactly as it would have
without that turn — the loop does not terminate because of the exception. -/
theorem per_turn_error_contained (st : AgentState) (s m : String)
    (rest : List Stimulus) (h : isExitCmd s = false) :
    loop st (Stimulus.line s (TurnOutcome.exc m) :: rest)
      = (Event.prompt :: Event.dispatch s :: Event.errorShown m :: Event.tryDifferent
           :: (loop st rest).1,
         (loop st rest).2) := by
  simp [loop, h]

/-- Witness for C4 at a concrete input: a failing turn shows the error and
the loop is still running, ready for the next input. -/
theorem per_turn_error_contained_witness :
    (loop (mkOrchestrator [])
        [Stimulus.line "weather in Boston" (TurnOutcome.exc "boom")]).1
      = [Event.prompt, Event.dispatch "weather in Boston", Event.errorShown "boom",
         Event.tryDifferent]
    ∧ (loop (mkOrchestrator [])
        [Stimulus.line "weather in Boston" (TurnOutcome.exc "boom")]).2.2
      = LoopExit.running := by
  have h := per_turn_error_contained (mkOrchestrator []) "weather in Boston" "boom" []
    (by decide)
  rw [h]
  exact ⟨by simp [loop], by simp [loop]⟩

/-- C5 counterexample: the claim says an interrupt during an active turn
aborts only that turn and the loop continues to accept further input; in the
code the `except KeyboardInterrupt` handler breaks out of the loop, so with
an interrupt arriving mid-turn the queued second input is never read and the
loop terminates. -/
theorem interrupt_midturn_cex :
    (loop (mkOrchestrator []) stimInterruptMidturn).2.2 = LoopExit.interrupted
    ∧ Event.dispatch "second question" ∉ (loop (mkOrchestrator []) stimInterruptMidturn).1
    ∧ (runProgram envBoth (Except.ok []) stimInterruptMidturn).result
        = ProgResult.finished := by
  exact ⟨by decide, by decide, by decide⟩

/-- C5 (amended): a `KeyboardInterrupt` while the loop is waiting for input
exits the interactive loop gracefully, and an interrupt during an active
turn likewise aborts that turn and exits the loop (it does not continue to
accept further input); in both cases the program finishes cleanly. -/
theorem interrupt_exits_loop (st : AgentState) (s : String) (rest : List Stimulus)
    (env : String → Option String) (ts : List String)
    (h : isExitCmd s = false) :
    loop st (Stimulus.interruptAtInput :: rest)
      = ([Event.prompt, Event.interrupted], st, LoopExit.interrupted)
    ∧ loop st (Stimulus.line s TurnOutcome.interrupt :: rest)
      = ([Event.prompt, Event.dispatch s, Event.interrupted], st, LoopExit.interrupted)
    ∧ (configOk env = true →
        (runProgram env (Except.ok ts) (Stimulus.interruptAtInput :: rest)).result
          = ProgResult.finished
        ∧ (runProgram env (Except.ok ts)
            (Stimulus.line s TurnOutcome.interrupt :: rest)).result
          = ProgResult.finished) := by
  refine ⟨by simp [loop], by simp [loop, h], ?_⟩
  intro hok
  have hs := configOk_startup env hok
  constructor
  · simp [runProgram, hs, loop]
  · simp [runProgram, hs, loop, h]

/-- Witness for C5 (amended) at a concrete input: an interrupt at the input
prompt ends the loop and the program finishes. -/
theorem interrupt_exits_loop_witness :
    loop (mkOrchestrator []) [Stimulus.interruptAtInput]
      = ([Event.prompt, Event.interrupted], mkOrchestrator [], LoopExit.interrupted)
    ∧ (runProgram envBoth (Except.ok []) [Stimulus.interruptAtInput]).result
        = ProgResult.finished := by
  have h := interrupt_exits_loop (mkOrchestrator []) "hello" [] envBoth [] (by decide)
  exact ⟨h.1, (h.2.2 (by decide)).1⟩

/-- C6 counterexample: the claim says that when both credential variables
are present, startup proceeds to open the session; but with `API_KEY`
present and set to the empty string (and the token present and non-empty),
the source's falsiness check raises the configuration error and no session
is ever opened. -/
theorem startup_empty_string_cex :
    (envEmptyKey "API_KEY").isSome = true
    ∧ (envEmptyKey "SHUTTERSTOCK_API_TOKEN").isSome = true
    ∧ (runProgram envEmptyKey (Except.ok []) []).result
        = ProgResult.configError "API_KEY environment variable is not set."
    ∧ Event.sessionOpen ∉ (runProgram envEmptyKey (Except.ok []) []).events := by
  exact ⟨by decide, by decide, by decide, by decide⟩

/-- C6 (amended): if either credential variable is absent or set to the
empty string, the process fails with a configuration error before any
session is opened and before any event at all (no resource is acquired);
if both are present and non-empty, startup proceeds and the very first
event is the session opening. -/
theorem startup_gate (env : String → Option String)
    (listTools : Except String (List String)) (stimuli : List Stimulus) :
    (configOk env = true ↔
      ((env "API_KEY" ≠ none ∧ env "API_KEY" ≠ some "")
        ∧ (env "SHUTTERSTOCK_API_TOKEN" ≠ none
            ∧ env "SHUTTERSTOCK_API_TOKEN" ≠ some "")))
    ∧ (configOk env = false →
        (∃ m, (runProgram env listTools stimuli).result = ProgResult.configError m)
        ∧ (runProgram env listTools stimuli).events = [])
    ∧ (configOk env = true →
        (runProgram env listTools stimuli).events.head? = some Event.sessionOpen) := by
  refine ⟨?_, ?_, ?_⟩
  · simp only [configOk, Bool.and_eq_true, pyTruthy_iff]
  · intro hbad
    obtain ⟨m, hm⟩ := startup_error_of_not_configOk env hbad
    refine ⟨⟨m, ?_⟩, ?_⟩
    · simp [runProgram, hm]
    · simp [runProgram, hm]
  · intro hok
    have hs := configOk_startup env hok
    cases listTools with
    | error m => simp [runProgram, hs]
    | ok ts =>
      cases hres : (loop (mkOrchestrator ts) stimuli).2.2 with
      | running => simp [runProgram, hs, hres]
      | exited => simp [runProgram, hs, hres]
      | interrupted => simp [runProgram, hs, hres]

/-- Witness for C6 (amended) at concrete inputs: with both credentials
present and non-empty the first event is the session opening, and with an
absent token the run produces a configuration error and an empty trace. -/
theorem startup_gate_witness :
    (runProgram envBoth (Except.ok []) []).events.head? = some Event.sessionOpen
    ∧ (∃ m, (runProgram (fun _ => none) (Except.ok []) []).result
        = ProgResult.configError m)
    ∧ (runProgram (fun _ => none) (Except.ok []) []).events = [] := by
  have h1 := (startup_gate envBoth (Except.ok []) []).2.2 (by decide)
  have h2 := (startup_gate (fun _ => none) (Except.ok []) []).2.1 (by decide)
  exact ⟨h1, h2.1, h2.2⟩

/-- C7: an input line whose ASCII lowercasing equals `exit` or `quit` makes
the loop print the goodbye and terminate with exit code 0, without
dispatching that input to the orchestrator and without showing any further
prompt; every other input line is dispatched to the orchestrator. -/
theorem exit_quit_terminates (st : AgentState) (s : String) (t : TurnOutcome)
    (rest : List Stimulus) (env : String → Option String) (ts : List String) :
    (isExitCmd s = true ↔ (strLower s = "exit" ∨ strLower s = "quit"))
    ∧ (isExitCmd s = true →
        loop st (Stimulus.line s t :: rest)
          = ([Event.prompt, Event.goodbye], st, LoopExit.exited)
        ∧ Event.dispatch s ∉ (loop st (Stimulus.line s t :: rest)).1
        ∧ countEvent Event.prompt (loop st (Stimulus.line s t :: rest)).1 = 1
        ∧ (configOk env = true →
            exitCode (runProgram env (Except.ok ts)
              (Stimulus.line s t :: rest)).result = some 0))
    ∧ (isExitCmd s = false →
        ∃ tl, (loop st (Stimulus.line s t :: rest)).1
          = Event.prompt :: Event.dispatch s :: tl) := by
  refine ⟨?_, ?_, ?_⟩
  · simp [isExitCmd]
  · intro hs
    refine ⟨by simp [loop, hs], by simp [loop, hs], by simp [loop, hs, countEvent], ?_⟩
    intro hok
    have hstart := configOk_startup env hok
    simp [runProgram, hstart, loop, hs, exitCode]
  · intro hs
    cases t with
    | ok r => exact ⟨(loop (recordTurn st s r) rest).1, by simp [loop, hs]⟩
    | exc m =>
        exact ⟨Event.errorShown m :: Event.tryDifferent :: (loop st rest).1,
          by simp [loop, hs]⟩
    | interrupt => exact ⟨[Event.interrupted], by simp [loop, hs]⟩

/-- Witness for C7 at a concrete input: typing `QUIT` (with another input
queued) prints only the one prompt and the goodbye, exits the loop, and the
program finishes with exit code 0; a non-reserved line is dispatched. -/
theorem exit_quit_terminates_witness :
    (loop (mkOrchestrator [])
        (Stimulus.line "QUIT" (TurnOutcome.ok "resp")
          :: [Stimulus.line "more" (TurnOutcome.ok "x")])).1
      = [Event.prompt, Event.goodbye]
    ∧ exitCode (runProgram envBoth (Except.ok [])
        (Stimulus.line "QUIT" (TurnOutcome.ok "resp")
          :: [Stimulus.line "more" (TurnOutcome.ok "x")])).result = some 0
    ∧ ∃ tl, (loop (mkOrchestrator [])
        (Stimulus.line "hello there" (TurnOutcome.ok "hi") :: [])).1
      = Event.prompt :: Event.dispatch "hello there" :: tl := by
  have h1 := (exit_quit_terminates (mkOrchestrator []) "QUIT" (TurnOutcome.ok "resp")
    [Stimulus.line "more" (TurnOutcome.ok "x")] envBoth []).2.1 (by decide)
  have h2 := (exit_quit_terminates (mkOrchestrator []) "hello there" (TurnOutcome.ok "hi")
    [] envBoth []).2.2 (by decide)
  refine ⟨?_, h1.2.2.2 (by decide), h2⟩
  rw [h1.1]

/-- C8: the environment dictionary handed to the spawned MCP server process
is built from exactly the two forwarded credential variables and nothing
else: any two parent environments agreeing on `API_KEY` and
`SHUTTERSTOCK_API_TOKEN` produce identical startup results (hence an
identical child environment), and a successful startup's dictionary has
exactly those two keys, in order. -/
theorem child_env_isolated (env1 env2 : String → Option String)
    (hA : env1 "API_KEY" = env2 "API_KEY")
    (hT : env1 "SHUTTERSTOCK_API_TOKEN" = env2 "SHUTTERSTOCK_API_TOKEN") :
    startup env1 = startup env2
    ∧ ∀ l, startup env1 = Except.ok l →
        l.map Prod.fst = ["API_KEY", "SHUTTERSTOCK_API_TOKEN"] := by
  constructor
  · simp only [startup, hA, hT]
  · intro l hl
    simp only [startup] at hl
    by_cases ha : pyTruthy (env1 "API_KEY") = false
    · simp [ha] at hl
    · simp only [ha, if_false] at hl
      by_cases ht : pyTruthy (env1 "SHUTTERSTOCK_API_TOKEN") = false
      · simp [ht] at hl
      · simp only [ht, if_false] at hl
        cases hl
        rfl

/-- Witness for C8 at concrete inputs: two parent environments sharing the
credentials but differing in `HOME` and `PATH` give the same startup result,
whose dictionary has exactly the two credential keys. -/
theorem child_env_isolated_witness :
    startup envExtraHome = startup envExtraPath
    ∧ ∃ l, startup envExtraHome = Except.ok l
        ∧ l.map Prod.fst = ["API_KEY", "SHUTTERSTOCK_API_TOKEN"] := by
  have h := child_env_isolated envExtraHome envExtraPath (by decide) (by decide)
  have hok : startup envExtraHome
      = Except.ok [("API_KEY", "secret1"), ("SHUTTERSTOCK_API_TOKEN", "secret2")] := by
    simp [startup, envExtraHome, pyTruthy]
  exact ⟨h.1, ⟨[("API_KEY", "secret1"), ("SHUTTERSTOCK_API_TOKEN", "secret2")],
    hok, h.2 _ hok⟩⟩

/-- C9: every invocation of `weather_assistant` constructs a fresh sub-agent
bound to the fixed weather system prompt, exactly the one `http_request`
tool, and an empty conversation state; no state survives between
invocations, so in any sequence of calls the result of a call depends only
on its own query and the external runner, never on the preceding calls. -/
theorem weather_subagent_fresh (run : AgentRunner) (qs1 qs2 : List String)
    (q : String) :
    mkWeatherAgent.system_prompt = WEATHER_SYSTEM_PROMPT
    ∧ mkWeatherAgent.tools = [ToolId.http_request]
    ∧ mkWeatherAgent.window.messages = []
    ∧ (runWeatherCalls run (qs1 ++ [q])).getLast? = some (weather_assistant run q)
    ∧ (runWeatherCalls run (qs1 ++ [q])).getLast?
        = (runWeatherCalls run (qs2 ++ [q])).getLast? := by
  have hlast : ∀ qs : List String,
      (runWeatherCalls run (qs ++ [q])).getLast? = some (weather_assistant run q) := by
    intro qs
    simp [runWeatherCalls]
  exact ⟨rfl, rfl, rfl, hlast qs1, (hlast qs1).trans (hlast qs2).symm⟩

/-- C10: the orchestrator agent is constructed with a tool list that is
exactly the externally discovered MCP tools followed, in order, by
`weather_assistant`, `http_request`, and `shell` — in particular it always
contains the general `shell` tool and the direct `http_request` tool — and
this tool list is unchanged by any sequence of interactive-loop turns. -/
theorem orchestrator_toolset (mcpTools : List String) (stimuli : List Stimulus) :
    (mkOrchestrator mcpTools).tools
      = mcpTools.map ToolId.mcp
          ++ [ToolId.weather_assistant, ToolId.http_request, ToolId.shell]
    ∧ ToolId.shell ∈ (mkOrchestrator mcpTools).tools
    ∧ ToolId.http_request ∈ (mkOrchestrator mcpTools).tools
    ∧ ToolId.weather_assistant ∈ (mkOrchestrator mcpTools).tools
    ∧ (loop (mkOrchestrator mcpTools) stimuli).2.1.tools
        = (mkOrchestrator mcpTools).tools := by
  refine ⟨rfl, ?_, ?_, ?_, loop_tools stimuli (mkOrchestrator mcpTools)⟩
  · simp [mkOrchestrator, orchestratorTools]
  · simp [mkOrchestrator, orchestratorTools]
  · simp [mkOrchestrator, orchestratorTools]

end StrandsDemo
